import Mathlib

/-!
Shallow embedding of `src/script.js` (political blog client, local-storage
mode) and verification of the specification claims about it.

Modelling conventions:
* The global mutable `state` object becomes an explicit value of type `St`
  threaded through the operations.
* Browser/platform primitives (`localStorage`, `JSON.parse`,
  `window.location`, `alert`, DOM containers) are not repository code; they
  are modelled at their interface: raw storage content as `RawData`
  (absent / malformed / parsed `null` / parsed document),
  `localStorage.setItem` outcomes as
  `PersistOutcome` (a set may succeed, throw `QuotaExceededError`, or throw
  some other error), alerts and redirects as explicit output fields, and DOM
  writes as the strings / structured views the code assigns via `innerHTML`.
* JavaScript `Date.now()` becomes an explicit `now : Nat` parameter.
* The numeric comparison `new Date(b.date) - new Date(a.date)` used for
  sorting is modelled by `dateVal`, which maps a well-formed `YYYY-MM-DD`
  string to a number monotone in the calendar date, exactly as timestamp
  comparison is for such strings.
-/

/-- Post record, mirroring the object shape used throughout `script.js`
(`id`, `title`, `description`, `date`, `category`, `image`); `image` is
`null` or a data-URL string, modelled as `Option String`. -/
structure Post where
  id : String
  title : String
  description : String
  date : String
  category : String
  image : Option String
deriving DecidableEq

/-- App state, mirroring `const state = { blogs: [], categories: [] }`. -/
structure St where
  blogs : List Post
  categories : List String
deriving DecidableEq

/-- Mirrors `const STORAGE_KEY = 'politics_blog_data'`. -/
def STORAGE_KEY : String := "politics_blog_data"

/-- Mirrors `const DEFAULT_CATEGORIES = ['Politics', 'Policy', 'Election', 'Opinion']`. -/
def DEFAULT_CATEGORIES : List String := ["Politics", "Policy", "Election", "Opinion"]

/-- Mirrors `const SEED_DATA = [...]`: the two built-in example posts. -/
def SEED_DATA : List Post :=
  [{ id := "1",
     title := "The Future of Digital Democracy",
     description := "As technology evolves, so does the way we participate in our democracy. Digital voting, online town halls, and AI-driven policy analysis are becoming realities. This post explores the potential benefits and risks of this digital transformation in the political landscape.",
     date := "2023-10-15",
     category := "Politics",
     image := none },
   { id := "17282719281",
     title := "Policy Changes in 2024",
     description := "A deep dive into the new economic policies proposed for the upcoming fiscal year. We analyze the impact on small businesses, international trade relationships, and the average consumer. What do these changes really mean for the economy?",
     date := "2024-01-20",
     category := "Policy",
     image := none }]

/-- Raw content found under the storage key by `localStorage.getItem`.
`absent` models `getItem` returning `null` (or the falsy empty string,
which takes the same branch); `malformed` models any string that
`JSON.parse` rejects with a `SyntaxError` (for example `"\x7b"`);
`nullDoc` models the string `"null"`, which `JSON.parse` accepts and maps
to the value `null` — the one parse result whose `.blogs` property access
then throws a `TypeError` (every other JSON value tolerates property
access, yielding `undefined` for missing fields); `doc` models any other
successfully parsed value, with `none` for an absent or falsy-missing
`blogs` / `categories` field (so `parsed.blogs || []` becomes
`(blogs.getD [])`). -/
inductive RawData where
  | absent
  | malformed
  | nullDoc
  | doc (blogs : Option (List Post)) (categories : Option (List String))
deriving DecidableEq

/-- Outcome of the platform call `localStorage.setItem`: success, a
`QuotaExceededError` throw, or any other throw. -/
inductive PersistOutcome where
  | ok
  | quotaExceeded
  | otherError
deriving DecidableEq

/-- Result of `saveData()`: the returned boolean, the alert messages shown,
and the snapshot written to storage on success (modelling
`localStorage.setItem(STORAGE_KEY, JSON.stringify(state))`). -/
structure SaveResult where
  success : Bool
  alerts : List String
  stored : Option St
deriving DecidableEq

/-- Mirrors `function saveData()` (script.js lines 69-82): try to persist the
whole state; on `QuotaExceededError` alert the quota message and return
`false`; on any other error alert the generic message and return `false`;
on success return `true`. -/
def saveData (st : St) (out : PersistOutcome) : SaveResult :=
  match out with
  | PersistOutcome.ok =>
      { success := true, alerts := [], stored := some st }
  | PersistOutcome.quotaExceeded =>
      { success := false,
        alerts := ["Storage limit exceeded! Image might be too large. Try a smaller image."],
        stored := none }
  | PersistOutcome.otherError =>
      { success := false,
        alerts := ["Error saving data. See console for details."],
        stored := none }

/-- Result of `loadData()`: the populated state and, when the seeding branch
ran, the result of the `saveData()` call it makes. -/
structure LoadOutcome where
  st : St
  save : Option SaveResult
deriving DecidableEq

/-- Mirrors `function loadData()` (script.js lines 55-67). `JSON.parse` of a
malformed string throws; for content parsing to `null` the access
`parsed.blogs` (script.js line 59) throws a `TypeError`; `loadData` has no
`try`/`catch`, so either error escapes: these are the `Except.error`
cases. Any other parsed document populates the state with
`parsed.blogs || []` and `parsed.categories || DEFAULT_CATEGORIES`; an
absent document seeds `SEED_DATA` / `DEFAULT_CATEGORIES` and immediately
calls `saveData()`. -/
def loadData (raw : RawData) (out : PersistOutcome) : Except String LoadOutcome :=
  match raw with
  | RawData.malformed => Except.error "SyntaxError: JSON.parse: unexpected input"
  | RawData.nullDoc =>
      Except.error "TypeError: cannot read properties of null (reading blogs)"
  | RawData.doc blogs categories =>
      Except.ok { st := { blogs := blogs.getD [],
                          categories := categories.getD DEFAULT_CATEGORIES },
                  save := none }
  | RawData.absent =>
      Except.ok { st := { blogs := SEED_DATA, categories := DEFAULT_CATEGORIES },
                  save := some (saveData { blogs := SEED_DATA, categories := DEFAULT_CATEGORIES } out) }

/-- Character-list core of JavaScript `String.prototype.split` with a
single-character separator: splitting the empty list yields one empty
group, and each separator occurrence starts a new group. -/
def splitCh (sep : Char) : List Char → List (List Char)
  | [] => [[]]
  | c :: cs =>
      if c = sep then [] :: splitCh sep cs
      else
        match splitCh sep cs with
        | [] => [[c]]
        | g :: gs => (c :: g) :: gs

/-- JavaScript `s.split(sep)` for a single-character separator, as used by
the code with `'/'`, `'\n'` and `'-'`. Like the JavaScript original it
never returns an empty array: `"".split(sep)` is `[""]`. -/
def splitOnStr (sep : Char) (s : String) : List String :=
  (splitCh sep s.data).map (fun cs => String.mk cs)

/-- Decimal parsing of a digit string (as the JavaScript `Date` constructor
reads the year, month and day groups of a `YYYY-MM-DD` string): `some`
of the value when the string is non-empty and all digits, else `none`. -/
def strToNat (s : String) : Option Nat :=
  if s.data ≠ [] ∧ s.data.all Char.isDigit then
    some (s.data.foldl (fun acc c => acc * 10 + (c.toNat - 48)) 0)
  else none

/-- Page kinds the router can dispatch to, plus `unknown` for anything
else. -/
inductive PageKind where
  | listing
  | create
  | detail
  | unknown
deriving DecidableEq

/-- Mirrors `path.split('/').pop()`: the final segment of a path.
JavaScript `split` with a non-empty separator never yields an empty array
(splitting the empty string yields `[""]`), matching `splitOnStr`, so
`pop` is total; `getLastD ""` is never the default case. -/
def lastSegment (path : String) : String :=
  (splitOnStr '/' path).getLastD ""

/-- Mirrors the dispatch conditions of `function initRouter()` (script.js
lines 85-99): `index.html` or the empty segment is the listing page,
`add-blog.html` the creation page, `blog.html` the detail page, anything
else nothing. -/
def resolve (path : String) : PageKind :=
  let page := lastSegment path
  if page = "index.html" ∨ page = "" then PageKind.listing
  else if page = "add-blog.html" then PageKind.create
  else if page = "blog.html" then PageKind.detail
  else PageKind.unknown

/-- Mirrors the target computation of `function highlightActiveLink()`
(script.js line 103): `window.location.pathname.split('/').pop() || 'index.html'`,
the final segment with the empty string (falsy) defaulting to
`index.html`. -/
def highlightTarget (path : String) : String :=
  let p := lastSegment path
  if p = "" then "index.html" else p

/-- Observable actions of a router run: dispatching to a page controller,
or running the navigation-highlight side effect with a given target. -/
inductive RouterAction where
  | dispatch (k : PageKind)
  | highlight (target : String)
deriving DecidableEq

/-- Mirrors `function initRouter()` (script.js lines 85-99) as its ordered
list of actions: at most one page-controller dispatch, always followed by
the `highlightActiveLink()` call. -/
def initRouter (path : String) : List RouterAction :=
  (match resolve path with
   | PageKind.unknown => []
   | k => [RouterAction.dispatch k]) ++ [RouterAction.highlight (highlightTarget path)]

/-- The page-controller dispatches occurring in a list of router actions. -/
def dispatches (acts : List RouterAction) : List PageKind :=
  acts.filterMap (fun a =>
    match a with
    | RouterAction.dispatch k => some k
    | RouterAction.highlight _ => none)

/-- Month names of the fixed `en-US` locale used by `formatDate`. -/
def monthName (m : Nat) : String :=
  match m with
  | 1 => "January"
  | 2 => "February"
  | 3 => "March"
  | 4 => "April"
  | 5 => "May"
  | 6 => "June"
  | 7 => "July"
  | 8 => "August"
  | 9 => "September"
  | 10 => "October"
  | 11 => "November"
  | 12 => "December"
  | _ => "Invalid"

/-- Mirrors `function formatDate(dateString)` (script.js lines 291-294):
`new Date(dateString).toLocaleDateString('en-US', { year: 'numeric',
month: 'long', day: 'numeric' })`. For a well-formed `YYYY-MM-DD` string
this renders like `October 15, 2023`; input the `Date` constructor cannot
parse renders the locale's `Invalid Date` string. Timezone normalisation
is not modelled. -/
def formatDate (dateString : String) : String :=
  match splitOnStr '-' dateString with
  | [y, m, d] =>
      match strToNat y, strToNat m, strToNat d with
      | some _, some mn, some dn =>
          if 1 ≤ mn ∧ mn ≤ 12 ∧ 1 ≤ dn ∧ dn ≤ 31 then
            monthName mn ++ " " ++ toString dn ++ ", " ++ y
          else "Invalid Date"
      | _, _, _ => "Invalid Date"
  | _ => "Invalid Date"

/-- Paragraph segments produced by `formatContent`: the result of
`text.split('\n').map(p => '<p>' + p + '</p>')`. JavaScript `split` on a
non-empty separator agrees with `String.splitOn` (in particular both map
the empty string to `[""]`). -/
def formatContentSegments (text : String) : List String :=
  (splitOnStr '\n' text).map (fun p => "<p>" ++ p ++ "</p>")

/-- Mirrors `function formatContent(text)` (script.js lines 296-299): the
paragraph segments joined with `join('')`. -/
def formatContent (text : String) : String :=
  String.join (formatContentSegments text)

/-- Numeric sort key modelling `new Date(s).getTime()` for well-formed
`YYYY-MM-DD` strings: digit groups folded positionally, so the key is
monotone in the calendar date exactly as the timestamp is. The comparator
`new Date(b.date) - new Date(a.date)` in `renderHomePage` compares these
keys. -/
def dateVal (s : String) : Nat :=
  ((splitOnStr '-' s).map (fun p => (strToNat p).getD 0)).foldl (fun acc n => acc * 10000 + n) 0

/-- Stable descending insertion by `dateVal`: the element is placed before
the first entry whose key is not strictly greater, so earlier elements
keep their relative order among equal keys. -/
def insertPostByDate (p : Post) : List Post → List Post
  | [] => [p]
  | q :: qs =>
      if dateVal p.date < dateVal q.date then q :: insertPostByDate p qs
      else p :: q :: qs

/-- Models `[...state.blogs].sort((a, b) => new Date(b.date) - new Date(a.date))`
(script.js line 121): a stable sort by date, newest first. Modern
JavaScript `Array.prototype.sort` is stable, as is this insertion sort. -/
def sortByDateDesc (l : List Post) : List Post :=
  List.foldr insertPostByDate [] l

/-- Placeholder image URL used by `createBlogCard` when a post has no
image. -/
def placeholderCardImg : String :=
  "https://placehold.co/600x400/1a3c6e/ffffff?text=Political+Blog"

/-- Structured view of one listing card: the interpolated values of the
template in `function createBlogCard(blog)` (script.js lines 134-157) plus
the click-navigation target `blog.html?id=...`. -/
structure Card where
  href : String
  imgSrc : String
  category : String
  dateText : String
  title : String
  excerpt : String
deriving DecidableEq

/-- Mirrors `function createBlogCard(blog)` (script.js lines 134-157). -/
def createBlogCard (blog : Post) : Card :=
  { href := "blog.html?id=" ++ blog.id,
    imgSrc := blog.image.getD placeholderCardImg,
    category := blog.category,
    dateText := formatDate blog.date,
    title := blog.title,
    excerpt := blog.description }

/-- What `renderHomePage` leaves in the grid container: the empty-state
message, or one card per post in display order. -/
inductive HomeView where
  | emptyState (msg : String)
  | cards (cards : List Card)
deriving DecidableEq

/-- Mirrors `function renderHomePage()` (script.js lines 114-132): bail out
when the grid container is absent; otherwise sort the blogs by date
descending and render either the single empty-state message or one card
per post. -/
def renderHomePage (gridExists : Bool) (st : St) : Option HomeView :=
  if gridExists = false then none
  else
    let sortedBlogs := sortByDateDesc st.blogs
    if sortedBlogs.length = 0 then
      some (HomeView.emptyState "No blogs found. Start by adding one!")
    else
      some (HomeView.cards (sortedBlogs.map createBlogCard))

/-- Result of `saveNewBlog`: the updated in-memory state, the result of the
`saveData()` call, and the navigation target assigned to
`window.location.href`. -/
structure SaveNewResult where
  st : St
  save : SaveResult
  redirect : Option String
deriving DecidableEq

/-- Mirrors `function saveNewBlog(title, description, date, category,
imageBase64)` (script.js lines 222-244): build the new post with id
`Date.now().toString()`, push it onto `state.blogs`, append the category
when `state.categories` does not already include it, call `saveData()`,
and then unconditionally set `window.location.href = 'index.html'`. -/
def saveNewBlog (st : St) (title description date category : String)
    (imageBase64 : Option String) (now : Nat) (out : PersistOutcome) : SaveNewResult :=
  let newBlog : Post :=
    { id := toString now, title := title, description := description,
      date := date, category := category, image := imageBase64 }
  let blogs := st.blogs ++ [newBlog]
  let categories :=
    if st.categories.contains category then st.categories
    else st.categories ++ [category]
  let st2 : St := { blogs := blogs, categories := categories }
  { st := st2, save := saveData st2 out, redirect := some "index.html" }

/-- The post object `saveNewBlog` constructs from a draft. -/
def newBlogOf (title description date category : String)
    (imageBase64 : Option String) (now : Nat) : Post :=
  { id := toString now, title := title, description := description,
    date := date, category := category, image := imageBase64 }

/-- What `renderSingleBlogPage` does to the page: nothing (early return),
the not-found markup, or the full article markup together with the new
document title. -/
inductive DetailView where
  | noop
  | notFound (html : String)
  | rendered (docTitle : String) (html : String)
deriving DecidableEq

/-- The literal not-found markup assigned to `container.innerHTML`
(script.js line 257). -/
def notFoundHtml : String :=
  "<h2>Blog not found</h2><a href=\"index.html\" class=\"btn-primary\">Go Home</a>"

/-- Placeholder image URL used by `renderSingleBlogPage` when a post has no
image. -/
def placeholderDetailImg : String :=
  "https://placehold.co/800x400/1a3c6e/ffffff?text=Political+Blog"

/-- The article markup assigned to `container.innerHTML` for a found post
(script.js lines 266-287), with the interpolations in template order;
inter-tag indentation whitespace is not reproduced. -/
def singleBlogHtml (blog : Post) : String :=
  "<article class=\"single-blog\"><header class=\"single-blog-header\"><div class=\"single-blog-meta\"><span class=\"badge\">"
    ++ blog.category
    ++ "</span><span class=\"separator\"> • </span><time>"
    ++ formatDate blog.date
    ++ "</time></div><h1>"
    ++ blog.title
    ++ "</h1></header><img src=\""
    ++ blog.image.getD placeholderDetailImg
    ++ "\" alt=\""
    ++ blog.title
    ++ "\" class=\"single-blog-image\"><div class=\"single-blog-content\">"
    ++ formatContent blog.description
    ++ "</div><div style=\"margin-top: 3rem; text-align: center;\"><a href=\"index.html\" class=\"btn-primary\">← Back to Blogs</a></div></article>"

/-- JavaScript truthiness of the `id` query parameter: `params.get('id')`
returns `null` for an absent parameter, and both `null` and the empty
string are falsy in `if (!blogId || !container) return;`. -/
def idTruthy (idParam : Option String) : Bool :=
  match idParam with
  | none => false
  | some s => !(s == "")

/-- Mirrors `function renderSingleBlogPage()` (script.js lines 247-288):
early return when the `id` parameter is falsy or the container is absent;
otherwise look the id up with `state.blogs.find(b => b.id === blogId)` and
render either the not-found markup or the article markup plus the document
title `blog.title + ' - Political Blog'`. -/
def renderSingleBlogPage (idParam : Option String) (containerExists : Bool) (st : St) : DetailView :=
  if !(idTruthy idParam) || !containerExists then DetailView.noop
  else
    let blogId := idParam.getD ""
    match st.blogs.find? (fun b => b.id == blogId) with
    | none => DetailView.notFound notFoundHtml
    | some blog =>
        DetailView.rendered (blog.title ++ " - Political Blog") (singleBlogHtml blog)

/-- Category derivation as iterated by the code: starting from the default
list, scan the posts in order and append each post's category when it is
not already present — exactly the update `saveNewBlog` performs per post
(script.js lines 235-238), folded over a post sequence. -/
def derive (defaults : List String) (posts : List Post) : List String :=
  posts.foldl
    (fun acc p => if acc.contains p.category then acc else acc ++ [p.category])
    defaults

/-- First-seen-order novel categories: scan a category sequence, keep the
first occurrence of each category not already seen, in scan order. -/
def firstSeenNovel (seen : List String) : List String → List String
  | [] => []
  | c :: cs =>
      if seen.contains c then firstSeenNovel seen cs
      else c :: firstSeenNovel (seen ++ [c]) cs

/-- Concrete sample post used to instantiate universally quantified
theorems on explicit inputs. -/
def samplePost : Post :=
  { id := "9", title := "t", description := "d", date := "2024-01-01",
    category := "Politics", image := none }

/-- Concrete sample store holding only `samplePost`. -/
def sampleSt : St := { blogs := [samplePost], categories := [] }

/-- Display-order relation for the homepage: `a` may precede `b` when `b`
does not have a strictly later date. -/
def postDateGe (a b : Post) : Prop := dateVal b.date ≤ dateVal a.date

theorem perm_insertPostByDate (p : Post) (l : List Post) :
    (insertPostByDate p l).Perm (p :: l) := by
  induction l with
  | nil => simp [insertPostByDate]
  | cons q qs ih =>
      by_cases h : dateVal p.date < dateVal q.date
      · simp only [insertPostByDate, if_pos h]
        exact (ih.cons q).trans (List.Perm.swap p q qs)
      · simp [insertPostByDate, if_neg h]

theorem perm_sortByDateDesc (l : List Post) : (sortByDateDesc l).Perm l := by
  induction l with
  | nil => simp [sortByDateDesc]
  | cons p ps ih =>
      exact (perm_insertPostByDate p (sortByDateDesc ps)).trans (ih.cons p)

theorem sorted_insertPostByDate (p : Post) (l : List Post)
    (h : l.Pairwise postDateGe) : (insertPostByDate p l).Pairwise postDateGe := by
  induction l with
  | nil => simp [insertPostByDate]
  | cons q qs ih =>
      rcases List.pairwise_cons.1 h with ⟨hq, hqs⟩
      by_cases hlt : dateVal p.date < dateVal q.date
      · simp only [insertPostByDate, if_pos hlt]
        refine List.pairwise_cons.2 ⟨?_, ih hqs⟩
        intro x hx
        rcases List.mem_cons.1 ((perm_insertPostByDate p qs).mem_iff.1 hx) with rfl | hx
        · exact Nat.le_of_lt hlt
        · exact hq x hx
      · simp only [insertPostByDate, if_neg hlt]
        refine List.pairwise_cons.2 ⟨?_, h⟩
        intro x hx
        rcases List.mem_cons.1 hx with rfl | hx
        · exact Nat.le_of_not_lt hlt
        · exact Nat.le_trans (hq x hx) (Nat.le_of_not_lt hlt)

theorem sorted_sortByDateDesc (l : List Post) :
    (sortByDateDesc l).Pairwise postDateGe := by
  induction l with
  | nil => simp [sortByDateDesc]
  | cons p ps ih => exact sorted_insertPostByDate p (sortByDateDesc ps) ih

theorem containsStr_true_iff (l : List String) (a : String) :
    l.contains a = true ↔ a ∈ l := by simp

theorem containsStr_false_iff (l : List String) (a : String) :
    l.contains a = false ↔ a ∉ l := by simp

theorem derive_cons (D : List String) (p : Post) (P : List Post) :
    derive D (p :: P)
      = derive (if D.contains p.category then D else D ++ [p.category]) P := rfl

theorem firstSeenNovel_cons (seen : List String) (c : String) (cs : List String) :
    firstSeenNovel seen (c :: cs)
      = if seen.contains c then firstSeenNovel seen cs
        else c :: firstSeenNovel (seen ++ [c]) cs := rfl

theorem derive_eq_append_firstSeenNovel (P : List Post) :
    ∀ D : List String, derive D P = D ++ firstSeenNovel D (P.map Post.category) := by
  induction P with
  | nil => intro D; simp [derive, firstSeenNovel]
  | cons p ps ih =>
      intro D
      by_cases hmem : p.category ∈ D
      · have hc : D.contains p.category = true := (containsStr_true_iff D _).2 hmem
        rw [derive_cons, if_pos hc, ih D, List.map_cons, firstSeenNovel_cons, if_pos hc]
      · rw [derive_cons, if_neg (by simp [hmem]), ih (D ++ [p.category]),
          List.map_cons, firstSeenNovel_cons, if_neg (by simp [hmem]),
          List.append_assoc]
        rfl

theorem not_mem_of_mem_firstSeenNovel (l : List String) :
    ∀ (seen : List String) (c : String), c ∈ firstSeenNovel seen l → c ∉ seen := by
  induction l with
  | nil => intro seen c hc; simp [firstSeenNovel] at hc
  | cons a as ih =>
      intro seen c hc
      by_cases hmem : a ∈ seen
      · rw [firstSeenNovel_cons, if_pos ((containsStr_true_iff seen a).2 hmem)] at hc
        exact ih seen c hc
      · rw [firstSeenNovel_cons,
          if_neg (by simp [hmem])] at hc
        rcases List.mem_cons.1 hc with rfl | hc
        · exact hmem
        · intro hin
          exact (ih (seen ++ [a]) c hc) (List.mem_append_left _ hin)

theorem nodup_derive (P : List Post) :
    ∀ D : List String, D.Nodup → (derive D P).Nodup := by
  induction P with
  | nil => intro D h; simpa [derive] using h
  | cons p ps ih =>
      intro D h
      by_cases hmem : p.category ∈ D
      · rw [derive_cons, if_pos ((containsStr_true_iff D _).2 hmem)]
        exact ih D h
      · rw [derive_cons,
          if_neg (by simp [hmem])]
        refine ih (D ++ [p.category]) ?_
        simp [List.nodup_append, h, hmem]

theorem mem_derive_of_mem (P : List Post) :
    ∀ (acc : List String) (c : String), c ∈ acc → c ∈ derive acc P := by
  induction P with
  | nil => intro acc c h; simpa [derive] using h
  | cons p ps ih =>
      intro acc c h
      by_cases hmem : p.category ∈ acc
      · rw [derive_cons, if_pos ((containsStr_true_iff acc _).2 hmem)]
        exact ih acc c h
      · rw [derive_cons,
          if_neg (by simp [hmem])]
        exact ih (acc ++ [p.category]) c (List.mem_append_left _ h)

theorem category_mem_derive (P : List Post) :
    ∀ (acc : List String) (p : Post), p ∈ P → p.category ∈ derive acc P := by
  induction P with
  | nil => intro acc p h; simp at h
  | cons q qs ih =>
      intro acc p h
      by_cases hmem : q.category ∈ acc
      · rw [derive_cons, if_pos ((containsStr_true_iff acc _).2 hmem)]
        rcases List.mem_cons.1 h with rfl | h
        · exact mem_derive_of_mem qs acc p.category hmem
        · exact ih acc p h
      · rw [derive_cons,
          if_neg (by simp [hmem])]
        rcases List.mem_cons.1 h with rfl | h
        · exact mem_derive_of_mem qs (acc ++ [p.category]) p.category
            (List.mem_append_right _ (List.mem_singleton.2 rfl))
        · exact ih (acc ++ [q.category]) p h

theorem derive_eq_self_of_all_mem (P : List Post) :
    ∀ acc : List String, (∀ p ∈ P, p.category ∈ acc) → derive acc P = acc := by
  induction P with
  | nil => intro acc _; rfl
  | cons q qs ih =>
      intro acc h
      have hq : acc.contains q.category = true :=
        (containsStr_true_iff acc _).2 (h q (List.mem_cons_self q qs))
      rw [derive_cons, if_pos hq]
      exact ih acc (fun p hp => h p (List.mem_cons_of_mem q hp))

theorem derive_idem (D : List String) (P : List Post) :
    derive (derive D P) P = derive D P :=
  derive_eq_self_of_all_mem P (derive D P) (fun p hp => category_mem_derive P D p hp)

/-- C1 counterexample: at a concrete failing save (quota exceeded), the
Create controller still navigates: `saveNewBlog` sets
`window.location.href = 'index.html'` unconditionally, so the user does
not stay on the form. -/
theorem C1_counterexample :
    (saveNewBlog { blogs := [], categories := DEFAULT_CATEGORIES }
        "t" "d" "2024-01-01" "Politics" none 5 PersistOutcome.quotaExceeded).save.success = false ∧
    (saveNewBlog { blogs := [], categories := DEFAULT_CATEGORIES }
        "t" "d" "2024-01-01" "Politics" none 5 PersistOutcome.quotaExceeded).redirect
      = some "index.html" := by
  exact ⟨rfl, rfl⟩

/-- C1 (amended): when persisting the new post fails, the error message is
surfaced to the user through a blocking alert from `saveData`, but the
controller still navigates to the listing page (`index.html`)
unconditionally, so the form is not left for retry. -/
theorem C1_failure_alerts_but_navigates (st : St)
    (title description date category : String) (imageBase64 : Option String)
    (now : Nat) (out : PersistOutcome) (h : out ≠ PersistOutcome.ok) :
    (saveNewBlog st title description date category imageBase64 now out).save.success = false ∧
    (saveNewBlog st title description date category imageBase64 now out).save.alerts ≠ [] ∧
    (saveNewBlog st title description date category imageBase64 now out).redirect
      = some "index.html" := by
  cases out with
  | ok => exact absurd rfl h
  | quotaExceeded => exact ⟨rfl, by simp [saveNewBlog, saveData], rfl⟩
  | otherError => exact ⟨rfl, by simp [saveNewBlog, saveData], rfl⟩

/-- Witness for `C1_failure_alerts_but_navigates` at a concrete input. -/
theorem C1_failure_alerts_but_navigates_witness :
    (saveNewBlog { blogs := [], categories := DEFAULT_CATEGORIES }
        "t" "d" "2024-01-01" "Politics" none 5 PersistOutcome.otherError).save.success = false ∧
    (saveNewBlog { blogs := [], categories := DEFAULT_CATEGORIES }
        "t" "d" "2024-01-01" "Politics" none 5 PersistOutcome.otherError).save.alerts ≠ [] ∧
    (saveNewBlog { blogs := [], categories := DEFAULT_CATEGORIES }
        "t" "d" "2024-01-01" "Politics" none 5 PersistOutcome.otherError).redirect
      = some "index.html" :=
  C1_failure_alerts_but_navigates { blogs := [], categories := DEFAULT_CATEGORIES }
    "t" "d" "2024-01-01" "Politics" none 5 PersistOutcome.otherError (by decide)

/-- C3 counterexample: `formatContent` on the empty string does not produce
zero paragraph segments: JavaScript `"".split('\n')` is `[""]`, so one
empty `<p></p>` segment is produced. -/
theorem C3_counterexample : formatContentSegments "" ≠ [] := by decide

/-- C3 (amended): `formatContent "a\nb\nc"` produces exactly three paragraph
segments, one per line, with no empty segments introduced; the empty
string produces exactly one empty paragraph segment `<p></p>`, not
zero. -/
theorem C3_formatContent_segments :
    formatContentSegments "a\nb\nc" = ["<p>a</p>", "<p>b</p>", "<p>c</p>"] ∧
    formatContent "a\nb\nc" = "<p>a</p><p>b</p><p>c</p>" ∧
    formatContentSegments "" = ["<p></p>"] ∧
    formatContent "" = "<p></p>" := by
  refine ⟨by decide, by decide, by decide, by decide⟩

/-- C4 counterexample: `loadData` (which has no `try`/`catch`) can fail
rather than completing: malformed persisted content makes `JSON.parse`
throw, and the JSON-parseable content `"null"` parses to `null`, on which
the `parsed.blogs` access throws. -/
theorem C4_counterexample :
    (loadData RawData.malformed PersistOutcome.ok).isOk = false ∧
    (loadData RawData.nullDoc PersistOutcome.ok).isOk = false := by decide

/-- C4 (amended): `loadData` completes without error and populates the
store for absent persisted content and for every JSON-parseable content
other than the document `null` (including partial documents missing
`blogs` or `categories`); it fails on malformed content, where
`JSON.parse` throws, and on content parsing to `null`, where the
`parsed.blogs` access throws. -/
theorem C4_load_totality (raw : RawData) (out : PersistOutcome)
    (h1 : raw ≠ RawData.malformed) (h2 : raw ≠ RawData.nullDoc) :
    (loadData raw out).isOk = true := by
  cases raw with
  | absent => rfl
  | malformed => exact absurd rfl h1
  | nullDoc => exact absurd rfl h2
  | doc blogs categories => rfl

/-- Witness for `C4_load_totality` at a concrete input. -/
theorem C4_load_totality_witness :
    (loadData (RawData.doc none none) PersistOutcome.ok).isOk = true :=
  C4_load_totality (RawData.doc none none) PersistOutcome.ok (by decide) (by decide)

/-- C10: an `id` query parameter equal to the empty string is falsy in
`if (!blogId || !container) return;`, so the Detail controller behaves
exactly as with an absent parameter: it returns immediately with no
rendering, whatever the store contents and whether or not the container
exists. -/
theorem C10_empty_id_like_absent (containerExists : Bool) (st : St) :
    renderSingleBlogPage (some "") containerExists st
        = renderSingleBlogPage none containerExists st ∧
    renderSingleBlogPage (some "") containerExists st = DetailView.noop := by
  cases containerExists <;> exact ⟨rfl, rfl⟩

theorem saveNewBlog_st (st : St) (title description date category : String)
    (imageBase64 : Option String) (now : Nat) (out : PersistOutcome) :
    (saveNewBlog st title description date category imageBase64 now out).st
      = { blogs := st.blogs ++ [newBlogOf title description date category imageBase64 now],
          categories :=
            if st.categories.contains category then st.categories
            else st.categories ++ [category] } := rfl

theorem renderHomePage_of_ne_nil (st : St) (h : st.blogs ≠ []) :
    renderHomePage true st
      = some (HomeView.cards ((sortByDateDesc st.blogs).map createBlogCard)) := by
  have hlen : (sortByDateDesc st.blogs).length = st.blogs.length :=
    (perm_sortByDateDesc st.blogs).length_eq
  have hne : ¬((sortByDateDesc st.blogs).length = 0) := by
    rw [hlen]
    simpa using h
  simp [renderHomePage, hne]

/-- C2: after `saveNewBlog`, the homepage listing renders one card per post
over exactly the old posts plus the new one (so the new post is included),
in an order that is a permutation of the store sorted by date descending;
this holds for every prior store state, draft, id clock value, and
persistence outcome. -/
theorem C2_create_then_list (st : St) (title description date category : String)
    (imageBase64 : Option String) (now : Nat) (out : PersistOutcome) :
    renderHomePage true (saveNewBlog st title description date category imageBase64 now out).st
      = some (HomeView.cards
          ((sortByDateDesc (st.blogs ++ [newBlogOf title description date category imageBase64 now])).map
            createBlogCard)) ∧
    createBlogCard (newBlogOf title description date category imageBase64 now)
      ∈ (sortByDateDesc (st.blogs ++ [newBlogOf title description date category imageBase64 now])).map
          createBlogCard ∧
    (sortByDateDesc (st.blogs ++ [newBlogOf title description date category imageBase64 now])).Perm
      (st.blogs ++ [newBlogOf title description date category imageBase64 now]) ∧
    (sortByDateDesc (st.blogs ++ [newBlogOf title description date category imageBase64 now])).Pairwise
      postDateGe := by
  refine ⟨?_, ?_, perm_sortByDateDesc _, sorted_sortByDateDesc _⟩
  · rw [saveNewBlog_st]
    exact renderHomePage_of_ne_nil _ (by simp)
  · exact List.mem_map_of_mem createBlogCard
      ((perm_sortByDateDesc _).mem_iff.2 (by simp))

/-- C5: when persistence fails with a quota-exceeded error during create,
the in-memory append is not rolled back: the new post is in
`state.blogs`, a subsequent homepage listing still shows its card, the
failed save is reported (alert shown, `false` returned) and the
controller completes normally (it proceeds to the redirect, no crash). -/
theorem C5_quota_keeps_new_post (st : St) (title description date category : String)
    (imageBase64 : Option String) (now : Nat) :
    newBlogOf title description date category imageBase64 now
        ∈ (saveNewBlog st title description date category imageBase64 now
            PersistOutcome.quotaExceeded).st.blogs ∧
    (saveNewBlog st title description date category imageBase64 now
        PersistOutcome.quotaExceeded).save.success = false ∧
    (saveNewBlog st title description date category imageBase64 now
        PersistOutcome.quotaExceeded).save.alerts
      = ["Storage limit exceeded! Image might be too large. Try a smaller image."] ∧
    (saveNewBlog st title description date category imageBase64 now
        PersistOutcome.quotaExceeded).redirect = some "index.html" ∧
    renderHomePage true (saveNewBlog st title description date category imageBase64 now
        PersistOutcome.quotaExceeded).st
      = some (HomeView.cards
          ((sortByDateDesc (st.blogs ++ [newBlogOf title description date category imageBase64 now])).map
            createBlogCard)) ∧
    createBlogCard (newBlogOf title description date category imageBase64 now)
      ∈ (sortByDateDesc (st.blogs ++ [newBlogOf title description date category imageBase64 now])).map
          createBlogCard := by
  refine ⟨by rw [saveNewBlog_st]; simp, rfl, rfl, rfl, ?_, ?_⟩
  · rw [saveNewBlog_st]
    exact renderHomePage_of_ne_nil _ (by simp)
  · exact List.mem_map_of_mem createBlogCard
      ((perm_sortByDateDesc _).mem_iff.2 (by simp))

/-- C6: the router maps `"/"`, `""`, and every path whose final segment is
`index.html` identically to the Listing page; every path whose final
segment is none of the recognised ones produces no page-controller
dispatch; and the navigation-highlight side effect is part of every
router run, whatever the path. -/
theorem C6_router :
    resolve "/" = PageKind.listing ∧
    resolve "" = PageKind.listing ∧
    (∀ path : String, lastSegment path = "index.html" → resolve path = PageKind.listing) ∧
    (∀ path : String,
      lastSegment path ≠ "index.html" → lastSegment path ≠ "" →
      lastSegment path ≠ "add-blog.html" → lastSegment path ≠ "blog.html" →
      resolve path = PageKind.unknown ∧ dispatches (initRouter path) = []) ∧
    (∀ path : String, RouterAction.highlight (highlightTarget path) ∈ initRouter path) := by
  refine ⟨by decide, by decide, ?_, ?_, ?_⟩
  · intro path h
    simp [resolve, h]
  · intro path h1 h2 h3 h4
    have hres : resolve path = PageKind.unknown := by
      simp [resolve, h1, h2, h3, h4]
    exact ⟨hres, by simp [initRouter, dispatches, hres]⟩
  · intro path
    unfold initRouter
    cases resolve path <;> simp [dispatches]

/-- Witness for `C6_router` at concrete paths. -/
theorem C6_router_witness :
    resolve "blog/pages/index.html" = PageKind.listing ∧
    (resolve "stray.html" = PageKind.unknown ∧ dispatches (initRouter "stray.html") = []) ∧
    RouterAction.highlight (highlightTarget "") ∈ initRouter "" :=
  ⟨C6_router.2.2.1 "blog/pages/index.html" (by decide),
   C6_router.2.2.2.1 "stray.html" (by decide) (by decide) (by decide) (by decide),
   C6_router.2.2.2.2 ""⟩

/-- C7: with no persisted document, loading seeds the store with exactly
the two example posts (ids `"1"` and the non-empty `"17282719281"`), both
of whose categories are in the resulting category list, and immediately
persists the seeded snapshot. -/
theorem C7_seeding :
    loadData RawData.absent PersistOutcome.ok
      = Except.ok
          { st := { blogs := SEED_DATA, categories := DEFAULT_CATEGORIES },
            save := some
              { success := true, alerts := [],
                stored := some { blogs := SEED_DATA, categories := DEFAULT_CATEGORIES } } } ∧
    SEED_DATA.length = 2 ∧
    SEED_DATA.map Post.id = ["1", "17282719281"] ∧
    ("17282719281" : String) ≠ "" ∧
    SEED_DATA.all (fun b => DEFAULT_CATEGORIES.contains b.category) = true := by
  exact ⟨rfl, rfl, rfl, by decide, rfl⟩

theorem find_by_unique_id (l : List Post) :
    ∀ p : Post, p ∈ l → l.Pairwise (fun a b => a.id ≠ b.id) →
      l.find? (fun b => b.id == p.id) = some p := by
  induction l with
  | nil => intro p h; simp at h
  | cons q qs ih =>
      intro p hmem hpair
      rcases List.pairwise_cons.1 hpair with ⟨hq, hqs⟩
      rcases List.mem_cons.1 hmem with rfl | hmem
      · have hid : (p.id == p.id) = true := by simp
        simp only [List.find?, hid]
      · have hne : (q.id == p.id) = false := by
          simp [hq p hmem]
        simp only [List.find?, hne]
        exact ih p hmem hqs

/-- C8: in the local store, an id absent from the collection is found by no
post and the Detail controller renders the not-found markup, which
contains the link back to the listing page; an id present in a collection
with unique ids is found as exactly the stored post, and the controller
renders that post's article and document title. -/
theorem C8_detail_lookup :
    (∀ (st : St) (id : String), id ≠ "" →
      st.blogs.find? (fun b => b.id == id) = none →
      renderSingleBlogPage (some id) true st = DetailView.notFound notFoundHtml) ∧
    (∃ before after : String,
      notFoundHtml = before ++ "href=\"index.html\"" ++ after) ∧
    (∀ (st : St) (p : Post), p ∈ st.blogs →
      st.blogs.Pairwise (fun a b => a.id ≠ b.id) →
      st.blogs.find? (fun b => b.id == p.id) = some p) ∧
    (∀ (st : St) (p : Post), p ∈ st.blogs → p.id ≠ "" →
      st.blogs.Pairwise (fun a b => a.id ≠ b.id) →
      renderSingleBlogPage (some p.id) true st
        = DetailView.rendered (p.title ++ " - Political Blog") (singleBlogHtml p)) := by
  refine ⟨?_, ⟨"<h2>Blog not found</h2><a ", " class=\"btn-primary\">Go Home</a>", by decide⟩,
    fun st p hmem hpair => find_by_unique_id st.blogs p hmem hpair, ?_⟩
  · intro st id hid hfind
    have htruthy : idTruthy (some id) = true := by
      simp [idTruthy, hid]
    simp [renderSingleBlogPage, htruthy, hfind]
  · intro st p hmem hid hpair
    have htruthy : idTruthy (some p.id) = true := by
      simp [idTruthy, hid]
    simp [renderSingleBlogPage, htruthy, find_by_unique_id st.blogs p hmem hpair]

/-- Witness for `C8_detail_lookup` at concrete inputs. -/
theorem C8_detail_lookup_witness :
    renderSingleBlogPage (some "zzz") true { blogs := [], categories := [] }
        = DetailView.notFound notFoundHtml ∧
    List.find? (fun b => b.id == samplePost.id) sampleSt.blogs = some samplePost ∧
    renderSingleBlogPage (some samplePost.id) true sampleSt
      = DetailView.rendered (samplePost.title ++ " - Political Blog")
          (singleBlogHtml samplePost) :=
  ⟨C8_detail_lookup.1 { blogs := [], categories := [] } "zzz" (by decide) (by decide),
   C8_detail_lookup.2.2.1 sampleSt samplePost (by simp [sampleSt, samplePost])
     (by simp [sampleSt]),
   C8_detail_lookup.2.2.2 sampleSt samplePost (by simp [sampleSt, samplePost])
     (by decide) (by simp [sampleSt])⟩

/-- C9: the derived category set is duplicate-free when the defaults are,
equals the defaults followed by the novel categories in first-seen scan
order (so defaults always precede novel categories), contains no default
among the novel part, is unchanged by creating a post whose category is
already present, and re-deriving from an already-derived set is the
identity. -/
theorem C9_category_set :
    (∀ (D : List String) (P : List Post), D.Nodup → (derive D P).Nodup) ∧
    (∀ (D : List String) (P : List Post),
      derive D P = D ++ firstSeenNovel D (P.map Post.category)) ∧
    (∀ (D : List String) (P : List Post) (c : String),
      c ∈ firstSeenNovel D (P.map Post.category) → c ∉ D) ∧
    (∀ (st : St) (title description date category : String)
      (imageBase64 : Option String) (now : Nat) (out : PersistOutcome),
      category ∈ st.categories →
      (saveNewBlog st title description date category imageBase64 now out).st.categories
        = st.categories) ∧
    (∀ (D : List String) (P : List Post), derive (derive D P) P = derive D P) := by
  refine ⟨fun D P h => nodup_derive P D h,
    fun D P => derive_eq_append_firstSeenNovel P D,
    fun D P c hc => not_mem_of_mem_firstSeenNovel (P.map Post.category) D c hc,
    ?_, fun D P => derive_idem D P⟩
  intro st title description date category imageBase64 now out h
  rw [saveNewBlog_st]
  simp [(containsStr_true_iff _ _).2 h, h]

/-- Witness for `C9_category_set` at concrete inputs. -/
theorem C9_category_set_witness :
    (derive DEFAULT_CATEGORIES SEED_DATA).Nodup ∧
    (saveNewBlog { blogs := [], categories := DEFAULT_CATEGORIES }
        "t" "d" "2024-01-01" "Politics" none 5 PersistOutcome.ok).st.categories
      = ({ blogs := [], categories := DEFAULT_CATEGORIES } : St).categories :=
  ⟨C9_category_set.1 DEFAULT_CATEGORIES SEED_DATA (by decide),
   C9_category_set.2.2.2.1 { blogs := [], categories := DEFAULT_CATEGORIES }
     "t" "d" "2024-01-01" "Politics" none 5 PersistOutcome.ok (by decide)⟩
